import Mathlib

/-!
Verification development for the PaperMiner PDF.js bridge
(`src/resources/bridge.js`).

The bridge is a single-threaded, event-driven script.  We embed it
shallowly: every event handler becomes a pure Lean function from the
bridge state (the script global variables) and the event payload to a
new state together with the list of observable effects it emits (host
calls through the channel object, context-menu show and hide, toasts).
JavaScript numbers appearing here (pixel coordinates, page numbers,
identifiers) are modelled as `Int`; the code only ever adds and
subtracts them, so no representation issue arises.  JavaScript strings
are modelled as Lean `String`; `trim` is modelled by `jsTrim` below
(the JavaScript whitespace set, applied to both ends) and `length` by
`String.length`.

Names ending in the letter sequence of certain Lean keywords are
shortened: structure `Annot` models a bridge annotation record,
`AnnotData` models the object literal `annotationData` built by
`createHighlight`, and `confirmAnnot` models the host-pushed global
`window.confirmAnnotation`.  Everything else keeps the source name.
-/

/-- Model of a client rectangle, `\x7b x, y, w, h \x7d` in the source:
`x`/`y` are viewport `left`/`top`, `w`/`h` are `width`/`height`. -/
structure Rect where
  x : Int
  y : Int
  w : Int
  h : Int
deriving DecidableEq, Repr

/-- Model of the object literal `annotationData` built by `createHighlight`
before it is serialized for the `onAnnotationRequest` host call. -/
structure AnnotData where
  page : Int
  text : String
  rects : List Rect
  color : String
  comment : String
deriving DecidableEq, Repr

/-- Model of a bridge annotation record as consumed by `renderHighlight`
and stored in the `annotations` global: fields `id`, `page`, `content`,
`rects`, `color`, `comment`. -/
structure Annot where
  id : Int
  page : Int
  content : String
  rects : List Rect
  color : String
  comment : String
deriving DecidableEq, Repr

/-- Model of one overlay `div.pm-highlight` element appended by
`renderHighlight`: its `data-annotation-id` attribute, its absolute css
position and size, its background string, its tooltip `title`, and the
values captured by its click-handler closure (`ann.id`, `ann.content`,
`ann.comment`). -/
structure Overlay where
  annId : Int
  left : Int
  top : Int
  width : Int
  height : Int
  background : String
  title : String
  clickId : Int
  clickContent : String
  clickComment : String
deriving DecidableEq, Repr

/-- Model of a `.textLayer` element inside a page div: its bounding
client rect origin, its scroll offsets, and its appended overlay
children (in append order). -/
structure TextLayer where
  rectLeft : Int
  rectTop : Int
  scrollLeft : Int
  scrollTop : Int
  overlays : List Overlay
deriving DecidableEq, Repr

/-- Model of a `.page` element of the PDF.js viewer document:
its `data-page-number` attribute and its optional `.textLayer` child. -/
structure PageDiv where
  pageNumber : Int
  textLayer : Option TextLayer
deriving DecidableEq, Repr

/-- Model of the `#context-menu` element state touched by the bridge:
`display` (visible or not) and the css `left`/`top` position. -/
structure MenuState where
  visible : Bool
  left : Int
  top : Int
deriving DecidableEq, Repr

/-- Layout environment read by the handlers at event time: the context
menu bounding-rect size, `window.innerWidth`/`innerHeight`, and the
viewer iframe bounding-rect origin. -/
structure Env where
  menuWidth : Int
  menuHeight : Int
  innerWidth : Int
  innerHeight : Int
  iframeLeft : Int
  iframeTop : Int
deriving DecidableEq, Repr

/-- The script global variables of bridge.js, plus the viewer iframe
document (its list of `.page` divs in document order).  `connected` is
true when `pyBridge` is non-null (connected mode). -/
structure BridgeState where
  connected : Bool
  selectedText : String
  selectionRects : List Rect
  selectionPage : Int
  annots : List Annot
  doc : List PageDiv
  menu : MenuState
deriving DecidableEq, Repr

/-- Model of a DOM node on the ancestor chain of a selection anchor:
its class list (empty for text nodes, which have no `classList`) and
the result of `parseInt(node.getAttribute("data-page-number"), 10)`
(`none` when the attribute is absent or does not parse, i.e. `NaN`). -/
structure DomNode where
  classes : List String
  dataPageNumber : Option Int
deriving DecidableEq, Repr

/-- Model of one selection range: the rectangles returned by
`getClientRects()` (already converted to `Rect`, since the source loop
copies `left`/`top`/`width`/`height` into `x`/`y`/`w`/`h` verbatim). -/
structure SelRange where
  rects : List Rect
deriving DecidableEq, Repr

/-- Model of `iframeWin.getSelection()` when it is non-null:
`rawText` is `selection.toString()`, `ranges` the list of ranges
(`rangeCount` is its length, `getRangeAt(0)` its head), `anchorChain`
the chain `anchorNode, anchorNode.parentNode, ...` strictly below the
iframe document root (the `while` walk stops at the document or at
null, so the chain is finite). -/
structure Selection where
  rawText : String
  ranges : List SelRange
  anchorChain : List DomNode
deriving DecidableEq, Repr

/-- The host-exposed methods the bridge may invoke on `pyBridge`. -/
inductive HostCall where
  | onTextSelected (text : String)
  | onAnnotationRequest (payload : String)
  | onContextAction (action : String) (payload : String)
  | onPageChanged (page : Int)
  | onViewerReady
deriving DecidableEq, Repr

/-- Observable effects of one handler invocation, in emission order:
host calls, context-menu show (with the requested coordinates before
clamping) and hide, and toasts. -/
inductive Effect where
  | call (c : HostCall)
  | menuShow (x : Int) (y : Int)
  | menuHide
  | toast (message : String) (durationMs : Int)
deriving DecidableEq, Repr

/-! JSON serialization.  `JSON.stringify` as applied by the bridge to
its two object shapes, with the standard JSON string escaping. -/

/-- Lower-case hexadecimal digit. -/
def hexDigitLower (n : Nat) : Char :=
  if n < 10 then Char.ofNat (48 + n) else Char.ofNat (87 + n)

/-- Upper-case hexadecimal digit. -/
def hexDigitUpper (n : Nat) : Char :=
  if n < 10 then Char.ofNat (48 + n) else Char.ofNat (55 + n)

/-- JSON escaping of a single character, as `JSON.stringify` performs
on string values. -/
def jsonEscapeChar (c : Char) : String :=
  if c = Char.ofNat 34 then "\\\""
  else if c = Char.ofNat 92 then "\\\\"
  else if c = Char.ofNat 8 then "\\b"
  else if c = Char.ofNat 9 then "\\t"
  else if c = Char.ofNat 10 then "\\n"
  else if c = Char.ofNat 12 then "\\f"
  else if c = Char.ofNat 13 then "\\r"
  else if c.toNat < 32 then
    "\\u00" ++ String.singleton (hexDigitLower (c.toNat / 16))
      ++ String.singleton (hexDigitLower (c.toNat % 16))
  else String.singleton c

/-- A JSON string literal for `s`. -/
def jsonQuote (s : String) : String :=
  "\"" ++ String.join (s.toList.map jsonEscapeChar) ++ "\""

/-- Serialization of one rect inside the `rects` array. -/
def stringifyRect (r : Rect) : String :=
  "\x7b\"x\":" ++ toString r.x ++ ",\"y\":" ++ toString r.y
    ++ ",\"w\":" ++ toString r.w ++ ",\"h\":" ++ toString r.h ++ "\x7d"

/-- Serialization `JSON.stringify(annotationData)` as sent with the
`onAnnotationRequest` host call (insertion order of the object literal:
page, text, rects, color, comment). -/
def stringifyAnnotData (a : AnnotData) : String :=
  "\x7b\"page\":" ++ toString a.page
    ++ ",\"text\":" ++ jsonQuote a.text
    ++ ",\"rects\":[" ++ String.intercalate "," (a.rects.map stringifyRect)
    ++ "],\"color\":" ++ jsonQuote a.color
    ++ ",\"comment\":" ++ jsonQuote a.comment ++ "\x7d"

/-- Serialization of the payload sent by an overlay click handler:
`JSON.stringify` of the object literal with fields id, content,
comment. -/
def stringifyShowAnnot (annId : Int) (content : String) (comment : String) : String :=
  "\x7b\"id\":" ++ toString annId
    ++ ",\"content\":" ++ jsonQuote content
    ++ ",\"comment\":" ++ jsonQuote comment ++ "\x7d"

/-! Context menu. -/

/-- Function `hideContextMenu`: sets `display` to none, leaving the
css position untouched. -/
def hideContextMenu (m : MenuState) : MenuState :=
  { m with visible := false }

/-- Function `showContextMenu(x, y)`: sets `display` to block, then
clamps: if `x + menuRect.width > window.innerWidth` the left position
becomes `window.innerWidth - menuRect.width - 10`, otherwise it stays
`x`; the top position is treated the same way with heights. -/
def showContextMenu (env : Env) (x y : Int) : MenuState :=
  let x1 := if x + env.menuWidth > env.innerWidth then env.innerWidth - env.menuWidth - 10 else x
  let y1 := if y + env.menuHeight > env.innerHeight then env.innerHeight - env.menuHeight - 10 else y
  { visible := true, left := x1, top := y1 }

/-! Page resolution from a selection. -/

/-- The `while (node && node !== doc)` walk of `getPageFromSelection`:
at the first chain node whose class list holds "page", return its
parsed `data-page-number` (`0` when the parse is `NaN`); falling off
the chain (reaching the document root or a null parent) yields 0. -/
def pageFromChain : List DomNode → Int
  | [] => 0
  | n :: rest =>
    if "page" ∈ n.classes then
      match n.dataPageNumber with
      | some pageNum => pageNum
      | none => 0
    else pageFromChain rest

/-- Function `getPageFromSelection(doc, selection)`: returns 0 when
the selection is null or has no range, else walks the anchor chain. -/
def getPageFromSelection (sel : Option Selection) : Int :=
  match sel with
  | none => 0
  | some s => if s.ranges.length = 0 then 0 else pageFromChain s.anchorChain

/-! Selection handling. -/

/-- The JavaScript WhiteSpace and LineTerminator characters stripped
by `String.prototype.trim`. -/
def jsIsWhitespace (c : Char) : Bool :=
  let n := c.toNat
  n = 9 || n = 10 || n = 11 || n = 12 || n = 13 || n = 32 || n = 160
    || n = 5760 || (8192 ≤ n && n ≤ 8202) || n = 8232 || n = 8233
    || n = 8239 || n = 8287 || n = 12288 || n = 65279

/-- Model of `String.prototype.trim`: drops leading and trailing
whitespace characters. -/
def jsTrim (s : String) : String :=
  String.mk (((s.data.dropWhile jsIsWhitespace).reverse.dropWhile jsIsWhitespace).reverse)

/-- Function `handleTextSelection(iframeWin, iframeDoc, mouseEvent)`:
computes the trimmed selection text; when it is shorter than 2
characters, hides the context menu and clears `selectedText` and
returns.  Otherwise stores the text, snapshots the client rects of the
first range when `rangeCount > 0`, resolves the page, notifies the
host with `onTextSelected` when connected, and shows the context menu
at the mouse position translated by the iframe bounding rect. -/
def handleTextSelection (env : Env) (s : BridgeState) (sel : Option Selection)
    (clientX clientY : Int) : BridgeState × List Effect :=
  let text := match sel with
    | some sl => jsTrim sl.rawText
    | none => ""
  if text.length < 2 then
    ({ s with menu := hideContextMenu s.menu, selectedText := "" }, [Effect.menuHide])
  else
    let s1 := { s with selectedText := text }
    let s2 := match sel with
      | some sl =>
        match sl.ranges.head? with
        | some range0 => { s1 with selectionRects := range0.rects }
        | none => s1
      | none => s1
    let s3 := { s2 with selectionPage := getPageFromSelection sel }
    let calls := if s.connected then [Effect.call (HostCall.onTextSelected text)] else []
    let menuX := clientX + env.iframeLeft
    let menuY := clientY + env.iframeTop
    let s4 := { s3 with menu := showContextMenu env menuX menuY }
    (s4, calls ++ [Effect.menuShow menuX menuY])

/-! Overlay rendering. -/

/-- Body of the per-rect loop of `renderHighlight`: one overlay element
positioned at `rect.x - textLayerRect.left + textLayer.scrollLeft`,
`rect.y - textLayerRect.top + textLayer.scrollTop`, sized `rect.w` by
`rect.h`, with background `ann.color + "40"`, tooltip
`ann.comment || ann.content || ""`, and a click closure capturing
`ann.id`, `ann.content`, `ann.comment`. -/
def mkOverlay (tl : TextLayer) (ann : Annot) (r : Rect) : Overlay :=
  { annId := ann.id
    left := r.x - tl.rectLeft + tl.scrollLeft
    top := r.y - tl.rectTop + tl.scrollTop
    width := r.w
    height := r.h
    background := ann.color ++ "40"
    title := if ann.comment ≠ "" then ann.comment
             else if ann.content ≠ "" then ann.content else ""
    clickId := ann.id
    clickContent := ann.content
    clickComment := ann.comment }

/-- Function `renderHighlight(ann)`: `querySelector` locates the first
`.page` div whose `data-page-number` equals `ann.page` (document
order); when none exists, or when that div has no `.textLayer` child,
the function logs and returns with the document unchanged.  Otherwise
it appends one overlay element per rect of `ann.rects` to the text
layer, in order. -/
def renderHighlight : List PageDiv → Annot → List PageDiv
  | [], _ => []
  | p :: ps, ann =>
    if p.pageNumber = ann.page then
      match p.textLayer with
      | none => p :: ps
      | some tl =>
        let tl2 := { tl with overlays := tl.overlays ++ ann.rects.map (mkOverlay tl ann) }
        { p with textLayer := some tl2 } :: ps
    else p :: renderHighlight ps ann

/-- The click handler installed on an overlay element: when connected,
one `onContextAction("show_annotation", ...)` host call with the
serialized captured id/content/comment. -/
def overlayClick (connected : Bool) (o : Overlay) : List Effect :=
  if connected then
    [Effect.call (HostCall.onContextAction "show_annotation"
      (stringifyShowAnnot o.clickId o.clickContent o.clickComment))]
  else []

/-- Function `createHighlight()`: returns immediately when
`selectedText` is empty (falsy) or `selectionRects` is empty.
Otherwise builds `annotationData` from the current selection state
with color "#FFFF00" and empty comment, sends it serialized via
`onAnnotationRequest` when connected, optimistically renders the same
record with the temporary id -1, and shows the success toast (default
2000 ms duration). -/
def createHighlight (s : BridgeState) : BridgeState × List Effect :=
  if s.selectedText = "" ∨ s.selectionRects.length = 0 then (s, [])
  else
    let annData : AnnotData :=
      { page := s.selectionPage, text := s.selectedText, rects := s.selectionRects
        color := "#FFFF00", comment := "" }
    let calls := if s.connected then
        [Effect.call (HostCall.onAnnotationRequest (stringifyAnnotData annData))] else []
    let ann : Annot :=
      { id := -1, page := s.selectionPage, content := s.selectedText
        rects := s.selectionRects, color := "#FFFF00", comment := "" }
    let s1 := { s with doc := renderHighlight s.doc ann }
    (s1, calls ++ [Effect.toast "Highlight saved!" 2000])

/-- Function `contextAction(action)`: hides the menu first; returns if
`selectedText` is empty; dispatches "highlight" to `createHighlight`,
and forwards any other action with the selected text to the host when
connected. -/
def contextAction (s : BridgeState) (action : String) : BridgeState × List Effect :=
  let s0 := { s with menu := hideContextMenu s.menu }
  if s0.selectedText = "" then (s0, [Effect.menuHide])
  else if action = "highlight" then
    let out := createHighlight s0
    (out.1, Effect.menuHide :: out.2)
  else if s0.connected then
    (s0, [Effect.menuHide, Effect.call (HostCall.onContextAction action s0.selectedText)])
  else (s0, [Effect.menuHide])

/-- Host-pushed global `window.loadAnnotations(annList)`: replaces the
`annotations` global with the argument and renders every entry of the
argument in order (nothing is ever removed from the document). -/
def loadAnnotations (s : BridgeState) (annList : List Annot) : BridgeState :=
  { s with annots := annList
           doc := annList.foldl renderHighlight s.doc }

/-- Host-pushed global `window.confirmAnnotation(realId)`: the body
only logs the acknowledged id; the bridge state is untouched and no
effect is emitted. -/
def confirmAnnot (s : BridgeState) (realId : Int) : BridgeState × List Effect :=
  let _ := realId
  (s, [])

/-! Viewer event bus subscriptions (`setupIframeListeners`). -/

/-- Events delivered by the PDF.js event bus to the three handlers the
bridge subscribes. -/
inductive ViewerEvent where
  | pagechanging (pageNumber : Int)
  | documentloaded
  | documenterror (message : Option String)
deriving DecidableEq, Repr

/-- Effects of one event-bus delivery: `pagechanging` forwards the
page number when connected; `documentloaded` calls `onViewerReady`
when connected; `documenterror` shows a toast with the event message
or "Unknown error". -/
def handleViewerEvent (connected : Bool) (e : ViewerEvent) : List Effect :=
  match e with
  | ViewerEvent.pagechanging pageNumber =>
    if connected then [Effect.call (HostCall.onPageChanged pageNumber)] else []
  | ViewerEvent.documentloaded =>
    if connected then [Effect.call HostCall.onViewerReady] else []
  | ViewerEvent.documenterror message =>
    [Effect.toast ("Error loading PDF: " ++ message.getD "Unknown error") 5000]

/-- Effects of a whole delivery trace, in order. -/
def eventTraceEffects (connected : Bool) : List ViewerEvent → List Effect
  | [] => []
  | e :: es => handleViewerEvent connected e ++ eventTraceEffects connected es

/-- Number of `onViewerReady` host calls in an effect list. -/
def countViewerReady : List Effect → Nat
  | [] => 0
  | Effect.call HostCall.onViewerReady :: es => countViewerReady es + 1
  | _ :: es => countViewerReady es

/-- Number of `documentloaded` events in a trace. -/
def countDocLoaded : List ViewerEvent → Nat
  | [] => 0
  | ViewerEvent.documentloaded :: es => countDocLoaded es + 1
  | _ :: es => countDocLoaded es

/-! Boot: `initViewer` and the viewer URL computation. -/

/-- Helper for `resolvePdfjsPath`: `href.split("?")[0]`, the href up
to (excluding) its first question mark. -/
def stripQuery (href : String) : String :=
  ((href.splitOn "?").headD "")

/-- Index of the last slash of a character list, when one exists. -/
def lastSlashPos : List Char → Option Nat
  | [] => none
  | c :: cs =>
    match lastSlashPos cs with
    | some i => some (i + 1)
    | none => if c = Char.ofNat 47 then some 0 else none

/-- Helper for `resolvePdfjsPath`: `h.substring(0, h.lastIndexOf("/"))`.
When no slash exists, `lastIndexOf` yields -1 and `substring` clamps
it to 0, producing the empty string. -/
def basePathOf (h : String) : String :=
  match lastSlashPos h.toList with
  | none => ""
  | some i => String.mk (h.toList.take i)

/-- Function `resolvePdfjsPath()`: strips the query string from the
current location href, truncates to the containing directory, and
appends the fixed relative viewer path. -/
def resolvePdfjsPath (href : String) : String :=
  basePathOf (stripQuery href) ++ "/../pdfjs-5.4.624-dist/web/viewer.html"

/-- Whether a character is left unescaped by `encodeURIComponent`:
letters, digits, and - _ . ! ~ * apostrophe ( ). -/
def isUnreservedURIChar (c : Char) : Bool :=
  let n := c.toNat
  (65 ≤ n && n ≤ 90) || (97 ≤ n && n ≤ 122) || (48 ≤ n && n ≤ 57)
    || n = 45 || n = 95 || n = 46 || n = 33 || n = 126 || n = 42
    || n = 39 || n = 40 || n = 41

/-- Percent-encoding of one byte, upper-case hex. -/
def percentEncodeByte (n : Nat) : String :=
  "%" ++ String.singleton (hexDigitUpper (n / 16 % 16))
    ++ String.singleton (hexDigitUpper (n % 16))

/-- Model of `encodeURIComponent`: unreserved characters kept, every
other character percent-encoded from its UTF-8 bytes. -/
def encodeURIComponent (s : String) : String :=
  String.join (s.toList.map (fun c =>
    if isUnreservedURIChar c then String.singleton c
    else String.join (((String.singleton c).toUTF8.toList.map (fun b => percentEncodeByte b.toNat)))))

/-- Result of `initViewer`: the `src` assigned to the viewer iframe,
when one is assigned at all, and the emitted effects. -/
structure InitResult where
  iframeSrc : Option String
  effects : List Effect
deriving DecidableEq, Repr

/-- Function `initViewer()`: reads the "file" query parameter
(`fileParam`, `none` when absent); a missing or empty value (both
falsy) shows the toast "Error: No PDF file specified" for 3000 ms and
returns without assigning the iframe src.  Otherwise the iframe src
becomes the resolved viewer path with the percent-encoded file URL
attached, and the load handlers are registered (not modelled: they
produce no immediate effect). -/
def initViewer (href : String) (fileParam : Option String) : InitResult :=
  match fileParam with
  | none => { iframeSrc := none, effects := [Effect.toast "Error: No PDF file specified" 3000] }
  | some fileUrl =>
    if fileUrl = "" then
      { iframeSrc := none, effects := [Effect.toast "Error: No PDF file specified" 3000] }
    else
      { iframeSrc := some (resolvePdfjsPath href ++ "?file=" ++ encodeURIComponent fileUrl)
        effects := [] }

/-! Observation helpers used by the theorems. -/

/-- Overlay children of the text layer of the i-th page div (empty
when the index is out of range or the page has no text layer). -/
def pageOverlays (d : List PageDiv) (i : Nat) : List Overlay :=
  match d.get? i with
  | none => []
  | some p =>
    match p.textLayer with
    | none => []
    | some tl => tl.overlays

/-- Payloads of the `onTextSelected` host calls of an effect list. -/
def textSelectedCalls : List Effect → List String
  | [] => []
  | Effect.call (HostCall.onTextSelected t) :: es => t :: textSelectedCalls es
  | _ :: es => textSelectedCalls es

/-- Payloads of the `onAnnotationRequest` host calls of an effect
list. -/
def annotationRequestCalls : List Effect → List String
  | [] => []
  | Effect.call (HostCall.onAnnotationRequest p) :: es => p :: annotationRequestCalls es
  | _ :: es => annotationRequestCalls es

/-- The trimmed text computed at the top of `handleTextSelection`. -/
def selTrimmedText (sel : Option Selection) : String :=
  match sel with
  | some sl => jsTrim sl.rawText
  | none => ""

/-- The optimistic record passed to `renderHighlight` by
`createHighlight`, with the temporary id -1. -/
def optimisticAnnot (s : BridgeState) : Annot :=
  { id := -1, page := s.selectionPage, content := s.selectedText
    rects := s.selectionRects, color := "#FFFF00", comment := "" }

/-! Helper lemmas. -/

lemma renderHighlight_found (pre post : List PageDiv) (p : PageDiv) (tl : TextLayer) (ann : Annot)
    (hpre : ∀ q ∈ pre, q.pageNumber ≠ ann.page)
    (hp : p.pageNumber = ann.page) (htl : p.textLayer = some tl) :
    renderHighlight (pre ++ p :: post) ann
      = pre ++ ({ p with textLayer := some ({ tl with overlays := tl.overlays ++ ann.rects.map (mkOverlay tl ann) }) }) :: post := by
  induction pre with
  | nil => simp [renderHighlight, hp, htl]
  | cons q qs ih =>
    have hq : q.pageNumber ≠ ann.page := hpre q (by simp)
    have ih2 := ih (fun r hr => hpre r (by simp [hr]))
    simp [renderHighlight, hq, ih2]

lemma get?_append_cons (pre post : List PageDiv) (p : PageDiv) :
    (pre ++ p :: post).get? pre.length = some p := by
  induction pre with
  | nil => rfl
  | cons q qs ih => simpa using ih

lemma pageOverlays_append_cons (pre post : List PageDiv) (p : PageDiv) (tl : TextLayer)
    (htl : p.textLayer = some tl) :
    pageOverlays (pre ++ p :: post) pre.length = tl.overlays := by
  unfold pageOverlays
  simp only [get?_append_cons]
  rw [htl]

lemma pageOverlays_renderHighlight_prefix (d : List PageDiv) (ann : Annot) (i : Nat) :
    ∃ t, pageOverlays (renderHighlight d ann) i = pageOverlays d i ++ t := by
  induction d generalizing i with
  | nil => exact ⟨[], by simp [renderHighlight, pageOverlays]⟩
  | cons p ps ih =>
    by_cases hp : p.pageNumber = ann.page
    · cases htl : p.textLayer with
      | none =>
        exact ⟨[], by simp [renderHighlight, hp, htl]⟩
      | some tl =>
        cases i with
        | zero =>
          refine ⟨ann.rects.map (mkOverlay tl ann), ?_⟩
          simp [renderHighlight, hp, htl, pageOverlays]
        | succ j =>
          refine ⟨[], ?_⟩
          simp [renderHighlight, hp, htl, pageOverlays]
    · cases i with
      | zero =>
        refine ⟨[], ?_⟩
        simp [renderHighlight, hp, pageOverlays]
      | succ j =>
        obtain ⟨t, ht⟩ := ih j
        refine ⟨t, ?_⟩
        simpa [renderHighlight, hp, pageOverlays] using ht

lemma pageOverlays_renderAll_prefix (l : List Annot) (d : List PageDiv) (i : Nat) :
    ∃ t, pageOverlays (l.foldl renderHighlight d) i = pageOverlays d i ++ t := by
  induction l generalizing d with
  | nil => exact ⟨[], by simp⟩
  | cons a as ih =>
    obtain ⟨t1, h1⟩ := pageOverlays_renderHighlight_prefix d a i
    obtain ⟨t2, h2⟩ := ih (renderHighlight d a)
    exact ⟨t1 ++ t2, by simp [List.foldl, h2, h1]⟩

lemma pageFromChain_no_page (chain : List DomNode)
    (h : ∀ n ∈ chain, "page" ∉ n.classes) :
    pageFromChain chain = 0 := by
  induction chain with
  | nil => rfl
  | cons n rest ih =>
    have hn : "page" ∉ n.classes := h n (by simp)
    have ih2 := ih (fun m hm => h m (by simp [hm]))
    simp [pageFromChain, hn, ih2]

/-! Shared concrete values used by the witness and counterexample
theorems. -/

def wEnv : Env := { menuWidth := 50, menuHeight := 20, innerWidth := 100, innerHeight := 80, iframeLeft := 7, iframeTop := 3 }

def wRect : Rect := { x := 1, y := 2, w := 3, h := 4 }

def wTl : TextLayer := { rectLeft := 100, rectTop := 200, scrollLeft := 4, scrollTop := 6, overlays := [] }

def wPage : PageDiv := { pageNumber := 5, textLayer := some wTl }

def wState : BridgeState :=
  { connected := true, selectedText := "old", selectionRects := [wRect], selectionPage := 5
    annots := [], doc := [wPage], menu := { visible := true, left := 9, top := 9 } }

def wSelShort : Selection := { rawText := " x ", ranges := [], anchorChain := [] }

def wSelLong : Selection := { rawText := " hello ", ranges := [{ rects := [wRect] }], anchorChain := [] }

def wAnn : Annot := { id := 7, page := 5, content := "hi", rects := [wRect], color := "#ABC123", comment := "note" }

def wSelNoPage : Selection :=
  { rawText := "hello"
    ranges := [{ rects := [wRect] }]
    anchorChain := [ { classes := [], dataPageNumber := none }
                   , { classes := ["textLayer"], dataPageNumber := none }
                   , { classes := ["pdfViewer"], dataPageNumber := none } ] }

lemma createHighlight_doc (s : BridgeState)
    (htext : s.selectedText ≠ "") (hrects : s.selectionRects ≠ []) :
    (createHighlight s).1.doc = renderHighlight s.doc (optimisticAnnot s) := by
  simp [createHighlight, optimisticAnnot, htext, hrects]

lemma createHighlight_doc_overlays (s : BridgeState) (pre post : List PageDiv)
    (p : PageDiv) (tl : TextLayer)
    (htext : s.selectedText ≠ "") (hrects : s.selectionRects ≠ [])
    (hdoc : s.doc = pre ++ p :: post)
    (hpre : ∀ q ∈ pre, q.pageNumber ≠ s.selectionPage)
    (hp : p.pageNumber = s.selectionPage) (htl : p.textLayer = some tl) :
    pageOverlays (createHighlight s).1.doc pre.length
      = tl.overlays ++ s.selectionRects.map (mkOverlay tl (optimisticAnnot s)) := by
  rw [createHighlight_doc s htext hrects, hdoc,
      renderHighlight_found pre post p tl (optimisticAnnot s) hpre hp htl,
      pageOverlays_append_cons pre post _ _ rfl]
  rfl

/-! Claim theorems. -/

/-- Claim C1, counterexample: with a previous selection still stored
(the rect list holds `wRect`), a pointer release whose trimmed text is
the single character x clears the text and hides the menu — but the
stored rect list is NOT cleared: it stays `[wRect]` rather than
becoming `[]` as the claim states (the source only assigns
`selectedText`; `selectionRects` is untouched on this path). -/
theorem C1_counterexample :
    (selTrimmedText (some wSelShort)).length < 2
    ∧ (handleTextSelection wEnv wState (some wSelShort) 0 0).1.selectedText = ""
    ∧ (handleTextSelection wEnv wState (some wSelShort) 0 0).1.menu.visible = false
    ∧ (handleTextSelection wEnv wState (some wSelShort) 0 0).1.selectionRects ≠ [] := by
  decide

/-- Claim C1 (amended): for every pointer-release selection whose
trimmed text has fewer than 2 characters, `handleTextSelection` clears
`selectedText`, hides the context menu and never shows it, emits no
host call, and leaves `selectionRects` and `selectionPage` unchanged
(they are not cleared). -/
theorem C1_short_selection (env : Env) (s : BridgeState) (sel : Option Selection)
    (clientX clientY : Int) (h : (selTrimmedText sel).length < 2) :
    (handleTextSelection env s sel clientX clientY).1.selectedText = ""
    ∧ (handleTextSelection env s sel clientX clientY).1.menu.visible = false
    ∧ (handleTextSelection env s sel clientX clientY).2 = [Effect.menuHide]
    ∧ (handleTextSelection env s sel clientX clientY).1.selectionRects = s.selectionRects
    ∧ (handleTextSelection env s sel clientX clientY).1.selectionPage = s.selectionPage := by
  cases sel with
  | none => simp [handleTextSelection, hideContextMenu]
  | some sl =>
    simp only [selTrimmedText] at h
    simp [handleTextSelection, hideContextMenu, h]

/-- Witness for the amended C1 at a concrete short selection. -/
theorem C1_short_selection_witness :
    (selTrimmedText (some wSelShort)).length < 2
    ∧ ((handleTextSelection wEnv wState (some wSelShort) 0 0).1.selectedText = ""
       ∧ (handleTextSelection wEnv wState (some wSelShort) 0 0).1.menu.visible = false
       ∧ (handleTextSelection wEnv wState (some wSelShort) 0 0).2 = [Effect.menuHide]
       ∧ (handleTextSelection wEnv wState (some wSelShort) 0 0).1.selectionRects = wState.selectionRects
       ∧ (handleTextSelection wEnv wState (some wSelShort) 0 0).1.selectionPage = wState.selectionPage) :=
  ⟨by decide, C1_short_selection wEnv wState (some wSelShort) 0 0 (by decide)⟩

/-- Claim C2: when `renderHighlight` finds the target page (first page
div with the record page number, carrying a text layer), it appends
exactly one overlay per rect, and each overlay has local position
`(rect.x - textLayerRect.left + textLayer.scrollLeft,
rect.y - textLayerRect.top + textLayer.scrollTop)` and size
`(rect.w, rect.h)`. -/
theorem C2_overlay_geometry (pre post : List PageDiv) (p : PageDiv) (tl : TextLayer)
    (ann : Annot)
    (hpre : ∀ q ∈ pre, q.pageNumber ≠ ann.page)
    (hp : p.pageNumber = ann.page) (htl : p.textLayer = some tl) :
    renderHighlight (pre ++ p :: post) ann
      = pre ++ ({ p with textLayer := some ({ tl with overlays := tl.overlays ++ ann.rects.map (mkOverlay tl ann) }) }) :: post
    ∧ ∀ r ∈ ann.rects,
        (mkOverlay tl ann r).left = r.x - tl.rectLeft + tl.scrollLeft
        ∧ (mkOverlay tl ann r).top = r.y - tl.rectTop + tl.scrollTop
        ∧ (mkOverlay tl ann r).width = r.w
        ∧ (mkOverlay tl ann r).height = r.h := by
  refine ⟨renderHighlight_found pre post p tl ann hpre hp htl, ?_⟩
  intro r _
  exact ⟨rfl, rfl, rfl, rfl⟩

/-- Witness for C2 at a concrete one-page document. -/
theorem C2_overlay_geometry_witness :
    wPage.pageNumber = wAnn.page
    ∧ (renderHighlight ([] ++ wPage :: []) wAnn
        = [] ++ ({ wPage with textLayer := some ({ wTl with overlays := wTl.overlays ++ wAnn.rects.map (mkOverlay wTl wAnn) }) }) :: []
       ∧ ∀ r ∈ wAnn.rects,
          (mkOverlay wTl wAnn r).left = r.x - wTl.rectLeft + wTl.scrollLeft
          ∧ (mkOverlay wTl wAnn r).top = r.y - wTl.rectTop + wTl.scrollTop
          ∧ (mkOverlay wTl wAnn r).width = r.w
          ∧ (mkOverlay wTl wAnn r).height = r.h) :=
  ⟨by decide, C2_overlay_geometry [] [] wPage wTl wAnn (by simp) (by decide) rfl⟩

/-- Claim C3: creating a highlight from a non-empty selection with at
least one rect, in connected mode, emits exactly one
`onAnnotationRequest` host call carrying the serialized current
selection (page, text, rects, color "#FFFF00", empty comment)
followed by the success toast, and appends one overlay element per
selection rect to the target text layer, each tagged with the
temporary id -1. -/
theorem C3_createHighlight_effects (s : BridgeState) (pre post : List PageDiv)
    (p : PageDiv) (tl : TextLayer)
    (htext : s.selectedText ≠ "") (hrects : s.selectionRects ≠ [])
    (hconn : s.connected = true) (hdoc : s.doc = pre ++ p :: post)
    (hpre : ∀ q ∈ pre, q.pageNumber ≠ s.selectionPage)
    (hp : p.pageNumber = s.selectionPage) (htl : p.textLayer = some tl) :
    (createHighlight s).2
      = [Effect.call (HostCall.onAnnotationRequest (stringifyAnnotData
           { page := s.selectionPage, text := s.selectedText, rects := s.selectionRects, color := "#FFFF00", comment := "" })),
         Effect.toast "Highlight saved!" 2000]
    ∧ pageOverlays (createHighlight s).1.doc pre.length
        = tl.overlays ++ s.selectionRects.map (mkOverlay tl (optimisticAnnot s))
    ∧ (s.selectionRects.map (mkOverlay tl (optimisticAnnot s))).length = s.selectionRects.length
    ∧ ∀ o ∈ s.selectionRects.map (mkOverlay tl (optimisticAnnot s)), o.annId = -1 := by
  refine ⟨?_, createHighlight_doc_overlays s pre post p tl htext hrects hdoc hpre hp htl, by simp, ?_⟩
  · simp [createHighlight, htext, hrects, hconn]
  · intro o ho
    obtain ⟨r, _, rfl⟩ := List.mem_map.mp ho
    rfl

/-- Witness for C3 at a concrete connected state with one rect. -/
theorem C3_createHighlight_effects_witness :
    wState.selectedText ≠ ""
    ∧ ((createHighlight wState).2
        = [Effect.call (HostCall.onAnnotationRequest (stringifyAnnotData
             { page := wState.selectionPage, text := wState.selectedText, rects := wState.selectionRects, color := "#FFFF00", comment := "" })),
           Effect.toast "Highlight saved!" 2000]
       ∧ pageOverlays (createHighlight wState).1.doc 0
           = wTl.overlays ++ wState.selectionRects.map (mkOverlay wTl (optimisticAnnot wState))
       ∧ (wState.selectionRects.map (mkOverlay wTl (optimisticAnnot wState))).length = wState.selectionRects.length
       ∧ ∀ o ∈ wState.selectionRects.map (mkOverlay wTl (optimisticAnnot wState)), o.annId = -1) :=
  ⟨by decide,
   C3_createHighlight_effects wState [] [] wPage wTl (by decide) (by decide) rfl rfl
     (by simp) (by decide) rfl⟩

/-- Claim C4, counterexample: the `documentloaded` handler calls
`onViewerReady` unconditionally per event; a delivery trace with two
`documentloaded` events produces two `onViewerReady` host calls, not
at most one as the claim states (no once-guard exists in the
source). -/
theorem C4_counterexample :
    countViewerReady (eventTraceEffects true
        [ViewerEvent.documentloaded, ViewerEvent.documentloaded]) = 2
    ∧ countViewerReady (eventTraceEffects true
        [ViewerEvent.documentloaded, ViewerEvent.documentloaded]) ≠ 1 := by
  decide

/-- Claim C4 (amended): in connected mode, `onViewerReady` is called
exactly once per `documentloaded` event: zero calls on traces with no
such event, one on the first and one more on every later one (the
bridge has no once-guard); in standalone mode it is never called. -/
theorem C4_ready_per_documentloaded (evts : List ViewerEvent) :
    countViewerReady (eventTraceEffects true evts) = countDocLoaded evts
    ∧ countViewerReady (eventTraceEffects false evts) = 0 := by
  induction evts with
  | nil => exact ⟨rfl, rfl⟩
  | cons e es ih =>
    cases e <;>
      simp [eventTraceEffects, handleViewerEvent, countViewerReady, countDocLoaded, ih.1, ih.2]

/-- Claim C5, counterexample: with a 50 px wide menu in a 100 px wide
viewport, a negative input is kept as is (final left -5, outside
`[0, 40]`), and the input 50 passes the overflow test (50 + 50 is not
greater than 100) and is also kept, landing at 50 which exceeds the
claimed upper bound 40.  The claimed clamping rectangle is violated on
both sides. -/
theorem C5_counterexample :
    ((showContextMenu wEnv (-5) 10).left = -5 ∧ (showContextMenu wEnv (-5) 10).left < 0)
    ∧ ((showContextMenu wEnv 50 10).left = 50
       ∧ wEnv.innerWidth - wEnv.menuWidth - 10 < (showContextMenu wEnv 50 10).left) := by
  decide

/-- Claim C5 (amended): `showContextMenu` makes the menu visible and
repositions each coordinate to the flush-against-the-edge position
(viewport extent minus menu extent minus 10) exactly when that
coordinate would overflow the right or bottom edge; otherwise the
input coordinate is kept unchanged (no clamping at 0 and none within
10 px of the edge). -/
theorem C5_clamp_behaviour (env : Env) (x y : Int) :
    (showContextMenu env x y).visible = true
    ∧ (showContextMenu env x y).left
        = (if x + env.menuWidth > env.innerWidth then env.innerWidth - env.menuWidth - 10 else x)
    ∧ (showContextMenu env x y).top
        = (if y + env.menuHeight > env.innerHeight then env.innerHeight - env.menuHeight - 10 else y) :=
  ⟨rfl, rfl, rfl⟩

/-- Claim C6: for a pointer-release selection whose trimmed text has
at least 2 characters, in connected mode, the handler emits exactly
one `onTextSelected` host call and its payload is exactly the trimmed
selected text. -/
theorem C6_onTextSelected_once (env : Env) (s : BridgeState) (sl : Selection)
    (clientX clientY : Int) (hconn : s.connected = true)
    (hlen : 2 ≤ (jsTrim sl.rawText).length) :
    textSelectedCalls (handleTextSelection env s (some sl) clientX clientY).2
      = [jsTrim sl.rawText] := by
  have hnot : ¬ (jsTrim sl.rawText).length < 2 := by omega
  simp [handleTextSelection, hnot, hconn, textSelectedCalls]

/-- Witness for C6 at a concrete five-character selection. -/
theorem C6_onTextSelected_once_witness :
    2 ≤ (jsTrim wSelLong.rawText).length
    ∧ textSelectedCalls (handleTextSelection wEnv wState (some wSelLong) 10 20).2
        = [jsTrim wSelLong.rawText] :=
  ⟨by decide, C6_onTextSelected_once wEnv wState wSelLong 10 20 rfl (by decide)⟩

/-- Claim C7: the host-pushed acknowledgment only logs.  After an
optimistic highlight creation, `confirmAnnot` (the model of
`window.confirmAnnotation`) leaves the whole bridge state unchanged
and performs no host call for any acknowledged id, so every overlay
element just rendered keeps the temporary id -1; clicking such an
overlay afterwards still sends `show_annotation` with id -1, not the
acknowledged id. -/
theorem C7_confirm_logs_only (s : BridgeState) (realId : Int) (pre post : List PageDiv)
    (p : PageDiv) (tl : TextLayer)
    (htext : s.selectedText ≠ "") (hrects : s.selectionRects ≠ [])
    (hdoc : s.doc = pre ++ p :: post)
    (hpre : ∀ q ∈ pre, q.pageNumber ≠ s.selectionPage)
    (hp : p.pageNumber = s.selectionPage) (htl : p.textLayer = some tl) :
    confirmAnnot (createHighlight s).1 realId = ((createHighlight s).1, [])
    ∧ pageOverlays (confirmAnnot (createHighlight s).1 realId).1.doc pre.length
        = tl.overlays ++ s.selectionRects.map (mkOverlay tl (optimisticAnnot s))
    ∧ ∀ o ∈ s.selectionRects.map (mkOverlay tl (optimisticAnnot s)),
        o.annId = -1
        ∧ overlayClick true o
            = [Effect.call (HostCall.onContextAction "show_annotation"
                (stringifyShowAnnot (-1) s.selectedText ""))] := by
  refine ⟨rfl, createHighlight_doc_overlays s pre post p tl htext hrects hdoc hpre hp htl, ?_⟩
  intro o ho
  obtain ⟨r, _, rfl⟩ := List.mem_map.mp ho
  exact ⟨rfl, rfl⟩

/-- Witness for C7 at a concrete state, acknowledging id 42. -/
theorem C7_confirm_logs_only_witness :
    wState.selectedText ≠ ""
    ∧ (confirmAnnot (createHighlight wState).1 42 = ((createHighlight wState).1, [])
       ∧ pageOverlays (confirmAnnot (createHighlight wState).1 42).1.doc 0
           = wTl.overlays ++ wState.selectionRects.map (mkOverlay wTl (optimisticAnnot wState))
       ∧ ∀ o ∈ wState.selectionRects.map (mkOverlay wTl (optimisticAnnot wState)),
           o.annId = -1
           ∧ overlayClick true o
               = [Effect.call (HostCall.onContextAction "show_annotation"
                   (stringifyShowAnnot (-1) wState.selectedText ""))]) :=
  ⟨by decide,
   C7_confirm_logs_only wState 42 [] [] wPage wTl (by decide) (by decide) rfl
     (by simp) (by decide) rfl⟩

/-- Claim C8: a null selection, a selection without ranges, and a
selection whose anchor chain carries no element with the "page" class
marker all resolve to page 0; the walk is a total function, so no
fault can occur. -/
theorem C8_page_defaults_to_zero (sl : Selection)
    (h : ∀ n ∈ sl.anchorChain, "page" ∉ n.classes) :
    getPageFromSelection (some sl) = 0 ∧ getPageFromSelection none = 0 := by
  refine ⟨?_, rfl⟩
  unfold getPageFromSelection
  by_cases hr : sl.ranges.length = 0
  · simp [hr]
  · simp [hr, pageFromChain_no_page sl.anchorChain h]

/-- Witness for C8 at a selection anchored under text-layer spans with
no page container above. -/
theorem C8_page_defaults_to_zero_witness :
    (∀ n ∈ wSelNoPage.anchorChain, "page" ∉ n.classes)
    ∧ getPageFromSelection (some wSelNoPage) = 0 ∧ getPageFromSelection none = 0 :=
  ⟨by decide, C8_page_defaults_to_zero wSelNoPage (by decide)⟩

/-- Claim C9: when the query string has no "file" parameter,
`initViewer` shows the toast "Error: No PDF file specified" (3000 ms)
and returns: the iframe src is never assigned and no other effect
occurs, whatever the page href is. -/
theorem C9_missing_file_param (href : String) :
    initViewer href none
      = { iframeSrc := none, effects := [Effect.toast "Error: No PDF file specified" 3000] } :=
  rfl

/-- Claim C10: a second `loadAnnotations` call replaces the in-memory
list with its argument, but removes nothing from the document: on
every page, the overlays present after the first call are still a
prefix of the overlays after the second call (the second call only
appends its own overlays alongside them). -/
theorem C10_reload_keeps_overlays (s : BridgeState) (l1 l2 : List Annot) :
    (loadAnnotations (loadAnnotations s l1) l2).annots = l2
    ∧ ∀ i : Nat, ∃ t, pageOverlays (loadAnnotations (loadAnnotations s l1) l2).doc i
        = pageOverlays (loadAnnotations s l1).doc i ++ t := by
  refine ⟨rfl, ?_⟩
  intro i
  exact pageOverlays_renderAll_prefix l2 (loadAnnotations s l1).doc i
